import Mathlib

/-!
Verification of the paychangu Go client library (src/transaction.go,
src/interfaces.go).

Each exported client method is a single HTTP round trip followed by pure
classification of the response.  The classification logic is embedded here
as pure functions of the received HTTP status code, the raw body text, and
the outcome of each `json.Unmarshal` / `Decode` call the Go code performs
(an `Option` argument: `some v` when the body decodes to `v`, `none` when
the decoder fails).  Go's `(T*, error)` return pairs are embedded as
`Option T × Option PCErr`, matching the `return nil, err` / `return &v, nil`
shapes of the source.  `float64` amounts are embedded as exact rationals
(every finite float is one), `time.Time` as its textual form, `interface{}`
as a JSON value.
-/

namespace Paychangu

/-- Substring containment: the character data of `n` occurs contiguously
inside the character data of `h`. -/
def Contains (h n : String) : Prop := ∃ p q : List Char, h.data = p ++ n.data ++ q

theorem strData_append (a b : String) : (a ++ b).data = a.data ++ b.data := rfl

theorem contains_mid (a n b : String) : Contains (a ++ n ++ b) n :=
  ⟨a.data, b.data, by simp [strData_append]⟩

theorem contains_suffix (a n : String) : Contains (a ++ n) n :=
  ⟨a.data, [], by simp [strData_append]⟩

theorem contains_self (n : String) : Contains n n :=
  ⟨[], [], by simp⟩

theorem contains_appendRight (h r n : String) (hc : Contains h n) : Contains (h ++ r) n := by
  obtain ⟨p, q, e⟩ := hc
  exact ⟨p, q ++ r.data, by simp [strData_append, e]⟩

theorem contains_appendLeft (l h n : String) (hc : Contains h n) : Contains (l ++ h) n := by
  obtain ⟨p, q, e⟩ := hc
  exact ⟨l.data ++ p, q, by simp [strData_append, e]⟩

theorem contains_trans (a b c : String) (h1 : Contains a b) (h2 : Contains b c) :
    Contains a c := by
  obtain ⟨p, q, e⟩ := h1
  obtain ⟨p2, q2, e2⟩ := h2
  exact ⟨p ++ p2, q2 ++ q, by simp [e, e2]⟩

theorem contains_of_splits (h n p q : String) (e : h = p ++ n ++ q) : Contains h n :=
  e ▸ contains_mid p n q

/-- The constant-text-around-the-status-code shape shared by the
`fmt.Errorf("API error (%d): %s", ...)` and
`fmt.Errorf("API request failed with status %d: %s", ...)` messages. -/
theorem contains_code_slot (a c b m : String) : Contains (a ++ c ++ b ++ m) c :=
  contains_appendRight _ _ _ (contains_appendRight _ _ _ (contains_suffix a c))

theorem contains_last_slot (a c b m : String) : Contains (a ++ c ++ b ++ m) m :=
  contains_suffix _ m

/-- A JSON value, used to embed Go `interface{}` fields and serialized wire
payloads. -/
inductive Jv where
  | null
  | jbool (b : Bool)
  | num (q : ℚ)
  | str (s : String)
  | arr (elems : List Jv)
  | obj (fields : List (String × Jv))

instance : Inhabited Jv := ⟨Jv.null⟩

/-- Go `Error` struct (interfaces.go): the generic `{status,message}` error
body. -/
structure Error where
  Status : String
  Message : String
deriving Inhabited

structure ResponseDataInner where
  TxRef : String
  Currency : String
  Amount : ℚ
  Mode : String
  Status : String
deriving Inhabited

structure ResponseData where
  Event : String
  CheckoutURL : String
  Data : ResponseDataInner
deriving Inhabited

/-- Go `Response` struct: the decoded body of a successful
`InitiatePayment`. -/
structure Response where
  Message : String
  Status : String
  Data : ResponseData
deriving Inhabited

structure Customization where
  Title : String
  Description : String
  Logo : String
deriving Inhabited

structure PaymentAuthorization where
  Channel : String
  CardNumber : String
  Expiry : String
  Brand : String
  Provider : String
  MobileNumber : String
  CompletedAt : String
deriving Inhabited

structure CustomerInfo where
  Email : String
  FirstName : String
  LastName : String
deriving Inhabited

structure PaymentLog where
  Type_ : String
  Message : String
  CreatedAt : String
deriving Inhabited

/-- Go `PaymentDetails` struct (`time.Time` embedded as its textual form,
`interface{}` as `Jv`). -/
structure PaymentDetails where
  EventType : String
  TxRef : String
  Mode : String
  Type_ : String
  Status : String
  Attempts : Int
  Reference : String
  Currency : String
  Amount : ℚ
  Charges : ℚ
  Customization : Customization
  Meta : Jv
  Authorization : PaymentAuthorization
  Customer : CustomerInfo
  Logs : List PaymentLog
  CreatedAt : String
  UpdatedAt : String
deriving Inhabited

/-- Go `VerifyPaymentResponse` struct. -/
structure VerifyPaymentResponse where
  Status : String
  Message : String
  Data : PaymentDetails
deriving Inhabited

structure SupportedCountry where
  Name : String
  Currency : String
deriving Inhabited

structure MobileMoneyOperator where
  ID : Int
  Name : String
  RefID : String
  LiveMode : Int
  ShortCode : String
  Logo : Option String
  OperatorFee : String
  PaymentPercentFee : String
  PaymentFiatFee : Option String
  PayoutPercentFee : Option String
  PayoutFiatFee : Option String
  SupportsWithdrawals : Bool
  SupportedCountry : SupportedCountry
deriving Inhabited

structure MobileMoneyOperatorsResponse where
  Status : String
  Message : String
  Data : List MobileMoneyOperator
deriving Inhabited

/-- Go `MobileMoneyPayoutRequest` struct. -/
structure MobileMoneyPayoutRequest where
  Mobile : String
  MobileMoneyOperatorRefID : String
  Amount : ℚ
  ChargeID : String
  Email : String
  FirstName : String
  LastName : String
  TransactionStatus : String
deriving Inhabited

structure MobileMoneyInfo where
  Name : String
  RefID : String
  Country : String
deriving Inhabited

structure TransactionCharges where
  Currency : String
  Amount : String
deriving Inhabited

structure PayoutTransactionDetails where
  ChargeID : String
  RefID : String
  TransID : Option String
  Currency : String
  Amount : ℚ
  FirstName : Option String
  LastName : Option String
  Email : Option String
  Type_ : String
  TraceID : Option String
  Status : String
  Mobile : String
  Attempts : Int
  Mode : String
  CreatedAt : String
  CompletedAt : String
  EventType : String
  MobileMoney : MobileMoneyInfo
  TransactionCharges : TransactionCharges
  Customer : Option Jv
deriving Inhabited

structure MMPayoutData where
  Transaction : PayoutTransactionDetails
deriving Inhabited

structure MobileMoneyPayoutResponse where
  Status : String
  Message : String
  Data : MMPayoutData
deriving Inhabited

/-- Go `MobileMoneyPayoutErrorResponse` struct: `Message` is a
`map[string][]string`, embedded as an association list; a Go `nil` map is
`none`. -/
structure MobileMoneyPayoutErrorResponse where
  Status : String
  Data : Jv
  Message : Option (List (String × List String))
deriving Inhabited

structure GetMobileMoneyPayoutDetailsResponse where
  Status : String
  Message : String
  Data : PayoutTransactionDetails
deriving Inhabited

structure Bank where
  UUID : String
  Name : String
deriving Inhabited

structure BanksResponse where
  Status : String
  Message : String
  Data : List Bank
deriving Inhabited

/-- Go `BankPayoutRequest` struct. -/
structure BankPayoutRequest where
  PayoutMethod : String
  BankUUID : String
  Amount : ℚ
  ChargeID : String
  BankAccountName : String
  BankAccountNumber : String
  Email : String
  FirstName : String
  LastName : String
deriving Inhabited

structure RecipientAccountDetails where
  BankUUID : String
  BankName : String
  AccountName : String
  AccountNumber : String
deriving Inhabited

structure BankPayoutTransactionDetails where
  ChargeID : String
  RefID : String
  TransID : Option String
  Currency : String
  Amount : ℚ
  FirstName : Option String
  LastName : Option String
  Email : Option String
  Type_ : String
  TraceID : Option String
  Status : String
  Mobile : String
  Attempts : Int
  Mode : String
  CreatedAt : String
  CompletedAt : Option String
  EventType : String
  TransactionCharges : TransactionCharges
  RecipientAccountDetails : RecipientAccountDetails
deriving Inhabited

structure BankPayoutData where
  Transaction : BankPayoutTransactionDetails
deriving Inhabited

structure BankPayoutResponse where
  Status : String
  Message : String
  Data : BankPayoutData
deriving Inhabited

structure GetBankPayoutDetailsResponse where
  Status : String
  Message : String
  Data : BankPayoutTransactionDetails
deriving Inhabited

/-- Two-character zero-padded decimal rendering of `m < 100`, as produced by
Go's `%.2f` for the fractional part. -/
def pad2 (m : Nat) : String := if m < 10 then "0" ++ toString m else toString m

/-- Round `|q| * 100` to the nearest integer, ties to even: the rounding
`fmt.Sprintf("%.2f", x)` applies to the exact value of the float `x`.
Computed from the numerator and denominator directly. -/
def round2Cents (q : ℚ) : Nat :=
  let n100 := q.num.natAbs * 100
  let d := q.den
  let fl := n100 / d
  let r := n100 % d
  if 2 * r < d then fl else if d < 2 * r then fl + 1 else if fl % 2 = 0 then fl else fl + 1

/-- Embedding of `fmt.Sprintf("%.2f", x)` (transaction.go line 495) for a
finite float value `q`: sign, integer part, and exactly two fractional
digits. -/
def fmtF2 (q : ℚ) : String :=
  (if q.num < 0 then "-" else "") ++ toString (round2Cents q / 100) ++ "." ++
    pad2 (round2Cents q % 100)

/-- Embedding of `json.Marshal` on `MobileMoneyPayoutRequest`: fields in
struct order, `omitempty` strings dropped when empty (interfaces.go lines
322-331). -/
def marshalMobileMoneyPayoutRequest (r : MobileMoneyPayoutRequest) : List (String × Jv) :=
  [("mobile", .str r.Mobile),
   ("mobile_money_operator_ref_id", .str r.MobileMoneyOperatorRefID),
   ("amount", .num r.Amount),
   ("charge_id", .str r.ChargeID)]
  ++ (if r.Email = "" then [] else [("email", .str r.Email)])
  ++ (if r.FirstName = "" then [] else [("first_name", .str r.FirstName)])
  ++ (if r.LastName = "" then [] else [("last_name", .str r.LastName)])
  ++ (if r.TransactionStatus = "" then [] else [("transaction_status", .str r.TransactionStatus)])

/-- Embedding of `json.Marshal` on the anonymous wire-payload struct built
by `InitiateBankPayout` (transaction.go lines 482-502): amount is the
`%.2f`-formatted string, `omitempty` strings dropped when empty. -/
def marshalBankPayoutPayload (r : BankPayoutRequest) : List (String × Jv) :=
  [("payout_method", .str r.PayoutMethod),
   ("bank_uuid", .str r.BankUUID),
   ("amount", .str (fmtF2 r.Amount)),
   ("charge_id", .str r.ChargeID),
   ("bank_account_name", .str r.BankAccountName),
   ("bank_account_number", .str r.BankAccountNumber)]
  ++ (if r.Email = "" then [] else [("email", .str r.Email)])
  ++ (if r.FirstName = "" then [] else [("first_name", .str r.FirstName)])
  ++ (if r.LastName = "" then [] else [("last_name", .str r.LastName)])

/-- Key list of a serialized JSON object. -/
def fieldKeys (l : List (String × Jv)) : List String := l.map Prod.fst

/-- Request URL of `GetMobileMoneyPayoutDetails` (transaction.go line 343):
`fmt.Sprintf("https://api.paychangu.com/mobile-money/payments/%sdetails", chargeID)`. -/
def getMobileMoneyPayoutDetailsURL (chargeID : String) : String :=
  "https://api.paychangu.com/mobile-money/payments/" ++ chargeID ++ "details"

/-- Request URL of `GetBankPayoutDetails` (transaction.go line 598):
`fmt.Sprintf("https://api.paychangu.com/direct-charge/payouts/%s/details", chargeID)`. -/
def getBankPayoutDetailsURL (chargeID : String) : String :=
  "https://api.paychangu.com/direct-charge/payouts/" ++ chargeID ++ "/details"

/-- Whether a character is one of Go `fmt`'s flag characters, consumed
after a `%` before the verb. -/
def goFlag (c : Char) : Bool := c = '#' || c = '0' || c = '+' || c = '-' || c = ' '

/-- Go `fmt`'s explicit-argument-index step (`argNumber`/`parseArgNumber`)
specialized to zero operands: a `[` starts an index, which is always out
of range, so it poisons the verb (first component `false`) and consumes
through the first `]` (or just the `[` when fewer than two characters
follow it or no `]` exists); anything else is left untouched. -/
def argNumberNA : List Char → Bool × List Char
  | '[' :: rest =>
    if rest.length < 2 then (false, rest)
    else
      match rest.findIdx? (fun c => c = ']') with
      | some j => (false, rest.drop (j + 1))
      | none => (false, rest)
  | l => (true, l)

/-- Go `fmt`'s `parsenum`: consume a run of decimal digits; an accumulated
value above `1e6` aborts the scan consuming everything to the end. -/
def parseDigitsNA : List Char → Nat → List Char
  | c :: rest, acc =>
    if c.isDigit then
      if acc > 1000000 then []
      else parseDigitsNA rest (acc * 10 + (c.toNat - 48))
    else c :: rest
  | [], _ => []

/-- One verb of Go `fmt`'s `doPrintf` with zero operands, given the
characters following the `%`: consume flags, an optional argument index,
width (`*` emits `%!(BADWIDTH)`), precision (`.` with its own optional
index; `*` emits `%!(BADPREC)`), a final optional index, then the verb:
`%` emits a literal percent, a poisoned index emits
`%!v(BADINDEX)`, a missing operand (always, with zero operands) emits
`%!v(MISSING)`, and a missing verb at the end emits `%!(NOVERB)`.
Returns the emitted text and the unconsumed remainder. -/
def processVerb (l : List Char) : String × List Char :=
  let l1 := l.dropWhile goFlag
  let (g1, l2) := argNumberNA l1
  let (wOut, l3) :=
    match l2 with
    | '*' :: rest => ("%!(BADWIDTH)", rest)
    | _ => ("", parseDigitsNA l2 0)
  let (pOut, g3, l4) :=
    match l3 with
    | '.' :: c :: rest =>
      match argNumberNA (c :: rest) with
      | (g, rem) =>
        match rem with
        | '*' :: rest2 => ("%!(BADPREC)", g, rest2)
        | _ => ("", g, parseDigitsNA rem 0)
    | _ => ("", true, l3)
  let (g4, l5) := argNumberNA l4
  match l5 with
  | [] => (wOut ++ pOut ++ "%!(NOVERB)", [])
  | v :: rest =>
    if v = '%' then (wOut ++ pOut ++ "%", rest)
    else if g1 && g3 && g4 then
      (wOut ++ pOut ++ "%!" ++ String.mk [v] ++ "(MISSING)", rest)
    else
      (wOut ++ pOut ++ "%!" ++ String.mk [v] ++ "(BADINDEX)", rest)

/-- Driver of the format interpretation: literal characters are copied,
each `%` hands off to `processVerb`.  The fuel is always sufficient since
every step consumes at least one character. -/
def fmtRunNA : Nat → List Char → String
  | 0, _ => ""
  | fuel + 1, l =>
    match l with
    | [] => ""
    | c :: rest =>
      if c = '%' then
        match processVerb rest with
        | (out, rest2) => out ++ fmtRunNA fuel rest2
      else String.mk [c] ++ fmtRunNA fuel rest

/-- Embedding of `fmt.Errorf(s)` applied to a dynamic string with NO
operands (transaction.go line 149): Go interprets `s` as a printf format,
so percent verbs are mangled (for example `"50% off"` becomes
`"50%!o(MISSING)ff"`); a string without `%` passes through verbatim. -/
def goFormatNoOperands (s : String) : String := fmtRunNA (s.data.length + 1) s.data

theorem goFormatNoOperands_plain : goFormatNoOperands "not found" = "not found" := by decide

theorem goFormatNoOperands_mangles_space_flag :
    goFormatNoOperands "50% off" = "50%!o(MISSING)ff" := by decide

theorem goFormatNoOperands_mangles_verb :
    goFormatNoOperands "rate is %s" = "rate is %!s(MISSING)" := by decide

theorem goFormatNoOperands_mangles_trailing :
    goFormatNoOperands "fee is 100%" = "fee is 100%!(NOVERB)" := by decide

theorem goFormatNoOperands_double_percent :
    goFormatNoOperands "100%% sure" = "100% sure" := by decide

theorem fmtRunNA_no_percent :
    ∀ l : List Char, '%' ∉ l → fmtRunNA (l.length + 1) l = String.mk l := by
  intro l
  induction l with
  | nil => intro _; decide
  | cons c t ih =>
    intro h
    have hc : c ≠ '%' := by intro e; subst e; exact h (List.mem_cons_self _ _)
    have ht : '%' ∉ t := fun m => h (List.mem_cons_of_mem _ m)
    have hmid : fmtRunNA (t.length + 1 + 1) (c :: t) =
        String.mk [c] ++ fmtRunNA (t.length + 1) t := by
      simp only [fmtRunNA, if_neg hc]
    show fmtRunNA (t.length + 1 + 1) (c :: t) = String.mk (c :: t)
    rw [hmid, ih ht]
    rfl

/-- A message with no percent character passes through Go's no-operand
format interpretation unchanged. -/
theorem goFormatNoOperands_of_no_percent (s : String) (h : '%' ∉ s.data) :
    goFormatNoOperands s = s := by
  cases s with
  | mk l => exact fmtRunNA_no_percent l h

/-- A Go `error` value returned by a client method.  `msg s` is an error
built by this library whose `Error()` text is `s` (`errors.New`,
`fmt.Errorf`).  `jsonFailure` is a decode error propagated verbatim from
the JSON decoder (`return nil, err`): its text comes from the decoder, is
determined by at most the first offending byte, and carries no remote
message. -/
inductive PCErr where
  | jsonFailure
  | msg (s : String)
deriving Inhabited, DecidableEq

/-- Classification logic of `InitiatePayment` (transaction.go lines 79-100)
after the response is received: `code` is the HTTP status, `bo` the raw
body text, `dec` the outcome of unmarshalling the body into `Response`. -/
def InitiatePayment (code : Nat) (bo : String) (dec : Option Response) :
    Option Response × Option PCErr :=
  if code ≠ 201 then
    (none, some (.msg bo))
  else
    match dec with
    | none => (none, some .jsonFailure)
    | some r => (some r, none)

/-- Classification logic of `VerifyPayment` (transaction.go lines 143-161).
The raw body is never read on any path of the Go code: the non-200 branch
decodes the stream into `Error` (`decErr`) and the 200 branch into
`VerifyPaymentResponse` (`dec`).  The non-200 decoded branch is
`fmt.Errorf(response.Message)` (line 149): the decoded message is used as
a printf format with no operands, so it passes through
`goFormatNoOperands`. -/
def VerifyPayment (code : Nat) (decErr : Option Error)
    (dec : Option VerifyPaymentResponse) : Option VerifyPaymentResponse × Option PCErr :=
  if code ≠ 200 then
    match decErr with
    | none => (none, some .jsonFailure)
    | some e => (none, some (.msg (goFormatNoOperands e.Message)))
  else
    match dec with
    | none => (none, some .jsonFailure)
    | some r =>
      if r.Status ≠ "success" then (none, some (.msg r.Message))
      else (some r, none)

/-- Classification logic of `GetMobileMoneyOperators` (transaction.go lines
198-221). -/
def GetMobileMoneyOperators (code : Nat) (bo : String) (decErr : Option Error)
    (dec : Option MobileMoneyOperatorsResponse) :
    Option (List MobileMoneyOperator) × Option PCErr :=
  if code ≠ 200 then
    match decErr with
    | some e =>
      if e.Message ≠ "" then
        (none, some (.msg ("API error (" ++ toString code ++ "): " ++ e.Message)))
      else
        (none, some (.msg ("API request failed with status " ++ toString code ++ ": " ++ bo)))
    | none =>
      (none, some (.msg ("API request failed with status " ++ toString code ++ ": " ++ bo)))
  else
    match dec with
    | none => (none, some .jsonFailure)
    | some r =>
      if r.Status ≠ "success" then (none, some (.msg r.Message))
      else (some r.Data, none)

/-- The `errorMessages` slice built from a decoded validation body
(transaction.go lines 284-291 and 535-542): one `field: msg` string per
complaint; a `nil` map contributes nothing.  Only its non-emptiness is
observable in the result. -/
def flattenValidation : Option (List (String × List String)) → List String
  | none => []
  | some l => (l.map (fun fm => fm.2.map (fun m => fm.1 ++ ": " ++ m))).flatten

/-- Classification logic of `InitiateMobileMoneyPayout` (transaction.go
lines 275-318).  `decErr` is the outcome of unmarshalling the non-200 body
into `MobileMoneyPayoutErrorResponse`; the two validation-branch messages
embed `errors.Join(errors.New("validation failed"), errors.New(string(bo))).Error()`,
which is `"validation failed\n" ++ bo`. -/
def InitiateMobileMoneyPayout (code : Nat) (bo : String)
    (decErr : Option MobileMoneyPayoutErrorResponse)
    (dec : Option MobileMoneyPayoutResponse) :
    Option MobileMoneyPayoutResponse × Option PCErr :=
  if code ≠ 200 then
    match decErr with
    | some e =>
      if e.Status = "failed" then
        if flattenValidation e.Message ≠ [] then
          (none, some (.msg ("API error (" ++ toString code ++ "): " ++
            ("validation failed\n" ++ bo))))
        else
          (none, some (.msg ("API error (" ++ toString code ++ "): " ++ bo)))
      else
        (none, some (.msg ("API request failed with status " ++ toString code ++ ": " ++ bo)))
    | none =>
      (none, some (.msg ("API request failed with status " ++ toString code ++ ": " ++ bo)))
  else
    match dec with
    | none => (none, some .jsonFailure)
    | some r =>
      if r.Status ≠ "success" then (none, some (.msg r.Message))
      else (some r, none)

/-- Classification logic of `GetMobileMoneyPayoutDetails` (transaction.go
lines 360-382).  On success the Go code returns `&response.Data`. -/
def GetMobileMoneyPayoutDetails (code : Nat) (bo : String) (decErr : Option Error)
    (dec : Option GetMobileMoneyPayoutDetailsResponse) :
    Option PayoutTransactionDetails × Option PCErr :=
  if code ≠ 200 then
    match decErr with
    | some e =>
      if e.Message ≠ "" then
        (none, some (.msg ("API error (" ++ toString code ++ "): " ++ e.Message)))
      else
        (none, some (.msg ("API request failed with status " ++ toString code ++ ": " ++ bo)))
    | none =>
      (none, some (.msg ("API request failed with status " ++ toString code ++ ": " ++ bo)))
  else
    match dec with
    | none => (none, some .jsonFailure)
    | some r =>
      if r.Status ≠ "success" then (none, some (.msg r.Message))
      else (some r.Data, none)

/-- Classification logic of `GetSupportedBanks` (transaction.go lines
424-446). -/
def GetSupportedBanks (code : Nat) (bo : String) (decErr : Option Error)
    (dec : Option BanksResponse) : Option (List Bank) × Option PCErr :=
  if code ≠ 200 then
    match decErr with
    | some e =>
      if e.Message ≠ "" then
        (none, some (.msg ("API error (" ++ toString code ++ "): " ++ e.Message)))
      else
        (none, some (.msg ("API request failed with status " ++ toString code ++ ": " ++ bo)))
    | none =>
      (none, some (.msg ("API request failed with status " ++ toString code ++ ": " ++ bo)))
  else
    match dec with
    | none => (none, some .jsonFailure)
    | some r =>
      if r.Status ≠ "success" then (none, some (.msg r.Message))
      else (some r.Data, none)

/-- Classification logic of `InitiateBankPayout` (transaction.go lines
525-572).  The non-200 body is first tried as a
`MobileMoneyPayoutErrorResponse` (`decMM`), then as the generic `Error`
(`decErr`); the validation branch embeds
`fmt.Errorf("API error (%d): validation failed: %s", ..., errors.Join(...).Error())`. -/
def InitiateBankPayout (code : Nat) (bo : String)
    (decMM : Option MobileMoneyPayoutErrorResponse) (decErr : Option Error)
    (dec : Option BankPayoutResponse) : Option BankPayoutResponse × Option PCErr :=
  if code ≠ 200 then
    let fallback : Option BankPayoutResponse × Option PCErr :=
      match decErr with
      | some g =>
        if g.Message ≠ "" then
          (none, some (.msg ("API error (" ++ toString code ++ "): " ++ g.Message)))
        else
          (none, some (.msg ("API request failed with status " ++ toString code ++ ": " ++ bo)))
      | none =>
        (none, some (.msg ("API request failed with status " ++ toString code ++ ": " ++ bo)))
    match decMM with
    | some e =>
      if e.Status = "failed" ∧ flattenValidation e.Message ≠ [] then
        (none, some (.msg ("API error (" ++ toString code ++ "): validation failed: " ++
          ("validation failed\n" ++ bo))))
      else fallback
    | none => fallback
  else
    match dec with
    | none => (none, some .jsonFailure)
    | some r =>
      if r.Status ≠ "success" then (none, some (.msg r.Message))
      else (some r, none)

/-- Classification logic of `GetBankPayoutDetails` (transaction.go lines
615-640).  The body-status literal on the 200 path is `"successful"`, not
`"success"`; on success the Go code returns `&response.Data`. -/
def GetBankPayoutDetails (code : Nat) (bo : String) (decErr : Option Error)
    (dec : Option GetBankPayoutDetailsResponse) :
    Option BankPayoutTransactionDetails × Option PCErr :=
  if code ≠ 200 then
    match decErr with
    | some e =>
      if e.Message ≠ "" then
        (none, some (.msg ("API error (" ++ toString code ++ "): " ++ e.Message)))
      else
        (none, some (.msg ("API request failed with status " ++ toString code ++ ": " ++ bo)))
    | none =>
      (none, some (.msg ("API request failed with status " ++ toString code ++ ": " ++ bo)))
  else
    match dec with
    | none => (none, some .jsonFailure)
    | some r =>
      if r.Status ≠ "successful" then (none, some (.msg r.Message))
      else (some r.Data, none)

/-- Claim C1: `GetBankPayoutDetails`, on an HTTP 200 response, returns a
success value only when the decoded body's status equals `"successful"`;
for every other status string (including `"success"`) it fails with an
error carrying the body's message.  All other endpoints that check a body
status succeed exactly on the literal `"success"`. -/
theorem c1_success_literal_asymmetry :
    (∀ (bo : String) (de : Option Error) (r : GetBankPayoutDetailsResponse),
      (r.Status = "successful" →
        GetBankPayoutDetails 200 bo de (some r) = (some r.Data, none)) ∧
      (r.Status ≠ "successful" →
        GetBankPayoutDetails 200 bo de (some r) = (none, some (.msg r.Message)))) ∧
    (∀ (de : Option Error) (v : VerifyPaymentResponse),
      (VerifyPayment 200 de (some v)).1.isSome = true ↔ v.Status = "success") ∧
    (∀ (bo : String) (de : Option Error) (r : MobileMoneyOperatorsResponse),
      (GetMobileMoneyOperators 200 bo de (some r)).1.isSome = true ↔ r.Status = "success") ∧
    (∀ (bo : String) (de : Option MobileMoneyPayoutErrorResponse)
        (r : MobileMoneyPayoutResponse),
      (InitiateMobileMoneyPayout 200 bo de (some r)).1.isSome = true ↔ r.Status = "success") ∧
    (∀ (bo : String) (de : Option Error) (r : GetMobileMoneyPayoutDetailsResponse),
      (GetMobileMoneyPayoutDetails 200 bo de (some r)).1.isSome = true ↔
        r.Status = "success") ∧
    (∀ (bo : String) (de : Option Error) (r : BanksResponse),
      (GetSupportedBanks 200 bo de (some r)).1.isSome = true ↔ r.Status = "success") ∧
    (∀ (bo : String) (dmm : Option MobileMoneyPayoutErrorResponse) (de : Option Error)
        (r : BankPayoutResponse),
      (InitiateBankPayout 200 bo dmm de (some r)).1.isSome = true ↔ r.Status = "success") ∧
    (∀ (bo : String) (de : Option Error) (r : GetBankPayoutDetailsResponse),
      (GetBankPayoutDetails 200 bo de (some r)).1.isSome = true ↔
        r.Status = "successful") := by
  refine ⟨?_, ?_, ?_, ?_, ?_, ?_, ?_, ?_⟩
  · intro bo de r
    constructor <;> intro h <;> simp [GetBankPayoutDetails, h]
  · intro de v
    by_cases h : v.Status = "success" <;> simp [VerifyPayment, h]
  · intro bo de r
    by_cases h : r.Status = "success" <;> simp [GetMobileMoneyOperators, h]
  · intro bo de r
    by_cases h : r.Status = "success" <;> simp [InitiateMobileMoneyPayout, h]
  · intro bo de r
    by_cases h : r.Status = "success" <;> simp [GetMobileMoneyPayoutDetails, h]
  · intro bo de r
    by_cases h : r.Status = "success" <;> simp [GetSupportedBanks, h]
  · intro bo dmm de r
    by_cases h : r.Status = "success" <;> simp [InitiateBankPayout, h]
  · intro bo de r
    by_cases h : r.Status = "successful" <;> simp [GetBankPayoutDetails, h]

theorem c1_success_literal_asymmetry_witness :
    GetBankPayoutDetails 200 "" none
        (some ⟨"success", "status success is a failure here", default⟩) =
      (none, some (PCErr.msg "status success is a failure here")) :=
  (c1_success_literal_asymmetry.1 "" none
    ⟨"success", "status success is a failure here", default⟩).2 (by decide)

/-- Claim C5: `VerifyPayment` on HTTP 200 with a decoded body whose status
is not `"success"` fails with the body's message and returns no result; an
HTTP success code alone never yields a success value. -/
theorem c5_verify_payment_business_error
    (de : Option Error) (r : VerifyPaymentResponse) (h : r.Status ≠ "success") :
    VerifyPayment 200 de (some r) = (none, some (PCErr.msg r.Message)) ∧
    ∀ d : Option VerifyPaymentResponse,
      (VerifyPayment 200 de d).1.isSome = true →
        ∃ v, d = some v ∧ v.Status = "success" := by
  constructor
  · simp [VerifyPayment, h]
  · intro d hd
    match d with
    | none => simp [VerifyPayment] at hd
    | some v =>
      by_cases hv : v.Status = "success"
      · exact ⟨v, rfl, hv⟩
      · simp [VerifyPayment, hv] at hd

theorem c5_verify_payment_business_error_witness :
    VerifyPayment 200 none (some ⟨"error", "not found", default⟩) =
      (none, some (PCErr.msg "not found")) :=
  (c5_verify_payment_business_error none ⟨"error", "not found", default⟩ (by decide)).1

/-- Claim C7: `InitiatePayment` succeeds exactly when the HTTP status is
201 and the body decodes as a `Response`, returning the decoded value with
no check of the body's own status field; on every non-201 status it fails
with an error whose message is the raw response body text. -/
theorem c7_initiate_payment_contract :
    (∀ (code : Nat) (bo : String) (dec : Option Response) (r : Response),
      (InitiatePayment code bo dec).1 = some r ↔ code = 201 ∧ dec = some r) ∧
    (∀ (code : Nat) (bo : String) (dec : Option Response),
      code ≠ 201 → InitiatePayment code bo dec = (none, some (PCErr.msg bo))) ∧
    (∀ (bo : String) (r : Response), InitiatePayment 201 bo (some r) = (some r, none)) := by
  refine ⟨?_, ?_, ?_⟩
  · intro code bo dec r
    by_cases h : code = 201
    · subst h; cases dec <;> simp [InitiatePayment]
    · simp [InitiatePayment, h]
  · intro code bo dec h
    simp [InitiatePayment, h]
  · intro bo r
    simp [InitiatePayment]

theorem c7_initiate_payment_contract_witness :
    InitiatePayment 404 "page not found" none = (none, some (PCErr.msg "page not found")) :=
  c7_initiate_payment_contract.2.1 404 "page not found" none (by decide)

/-- Claim C8: `GetMobileMoneyPayoutDetails` requests
`https://api.paychangu.com/mobile-money/payments/` ++ chargeID ++ `details`
with no separating slash, while `GetBankPayoutDetails` requests
`https://api.paychangu.com/direct-charge/payouts/` ++ chargeID ++ `/details`
with a separating slash. -/
theorem c8_details_url_shapes :
    (∀ c, getMobileMoneyPayoutDetailsURL c =
      "https://api.paychangu.com/mobile-money/payments/" ++ c ++ "details") ∧
    (∀ c, getBankPayoutDetailsURL c =
      "https://api.paychangu.com/direct-charge/payouts/" ++ c ++ "/details") ∧
    getMobileMoneyPayoutDetailsURL "TX1" =
      "https://api.paychangu.com/mobile-money/payments/TX1details" ∧
    getBankPayoutDetailsURL "TX1" =
      "https://api.paychangu.com/direct-charge/payouts/TX1/details" :=
  ⟨fun _ => rfl, fun _ => rfl, by decide, by decide⟩

theorem pad2_spec :
    ∀ m, m < 100 → (pad2 m).length = 2 ∧ (pad2 m).data.all Char.isDigit = true := by
  decide

theorem rat_1234_5_eq : (1234.5 : ℚ) = ⟨2469, 2, by decide, by decide⟩ := by
  rw [Rat.mk'_eq_divInt, Rat.divInt_eq_div]; norm_num

theorem fmtF2_1234_5 : fmtF2 (1234.5 : ℚ) = "1234.50" := by
  rw [rat_1234_5_eq]; decide

/-- Claim C2: `InitiateBankPayout` serializes the wire payload's amount
field as a decimal string with exactly two fractional digits (a JSON
string, not a number); for amount `1234.5` the serialized amount is the
literal string `"1234.50"`. -/
theorem c2_bank_amount_two_decimal_string :
    (∀ r : BankPayoutRequest,
      ("amount", Jv.str (fmtF2 r.Amount)) ∈ marshalBankPayoutPayload r) ∧
    (∀ q : ℚ, ∃ a b : String,
      fmtF2 q = a ++ "." ++ b ∧ b.length = 2 ∧ b.data.all Char.isDigit = true) ∧
    fmtF2 (1234.5 : ℚ) = "1234.50" ∧
    ("amount", Jv.str "1234.50") ∈ marshalBankPayoutPayload
      ⟨"bank_transfer", "uuid-1", (1234.5 : ℚ), "CHARGE1", "John Doe",
        "1000000010", "", "", ""⟩ := by
  refine ⟨?_, ?_, fmtF2_1234_5, ?_⟩
  · intro r; simp [marshalBankPayoutPayload]
  · intro q
    refine ⟨(if q.num < 0 then "-" else "") ++ toString (round2Cents q / 100),
      pad2 (round2Cents q % 100), rfl, ?_⟩
    exact pad2_spec _ (Nat.mod_lt _ (by decide))
  · simp [marshalBankPayoutPayload, fmtF2_1234_5]

/-- Claim C3 counterexample: `InitiatePayment` returns the same error for
two different non-matching HTTP status codes (400 and 502), so its error
cannot carry the exact status code; the error is the raw body text alone
(transaction.go lines 79-86). -/
theorem c3_counterexample :
    InitiatePayment 400 "upstream rejected this request" none =
      (none, some (PCErr.msg "upstream rejected this request")) ∧
    InitiatePayment 502 "upstream rejected this request" none =
      (none, some (PCErr.msg "upstream rejected this request")) :=
  ⟨rfl, rfl⟩

/-- Claim C3 amended: the six operations other than `InitiatePayment` and
`VerifyPayment` fail on a non-matching HTTP status with an error whose
message contains that exact status code (in decimal) together with the
decoded generic message or the raw body text; `InitiatePayment` instead
returns exactly the raw body text, and `VerifyPayment` returns exactly the
decoded body's message passed through Go's no-operand format-string
interpretation (or the bare decode error when the body fails to decode) --
for these two the error does not depend on the status code at all. -/
theorem c3_amended_status_code_in_errors :
    (∀ (code : Nat) (bo : String) (de : Option Error)
        (dec : Option MobileMoneyOperatorsResponse), code ≠ 200 →
      ∃ s, (GetMobileMoneyOperators code bo de dec).2 = some (PCErr.msg s) ∧
        Contains s (toString code) ∧
        (Contains s bo ∨ ∃ e, de = some e ∧ Contains s e.Message)) ∧
    (∀ (code : Nat) (bo : String) (de : Option Error)
        (dec : Option GetMobileMoneyPayoutDetailsResponse), code ≠ 200 →
      ∃ s, (GetMobileMoneyPayoutDetails code bo de dec).2 = some (PCErr.msg s) ∧
        Contains s (toString code) ∧
        (Contains s bo ∨ ∃ e, de = some e ∧ Contains s e.Message)) ∧
    (∀ (code : Nat) (bo : String) (de : Option Error) (dec : Option BanksResponse),
        code ≠ 200 →
      ∃ s, (GetSupportedBanks code bo de dec).2 = some (PCErr.msg s) ∧
        Contains s (toString code) ∧
        (Contains s bo ∨ ∃ e, de = some e ∧ Contains s e.Message)) ∧
    (∀ (code : Nat) (bo : String) (de : Option Error)
        (dec : Option GetBankPayoutDetailsResponse), code ≠ 200 →
      ∃ s, (GetBankPayoutDetails code bo de dec).2 = some (PCErr.msg s) ∧
        Contains s (toString code) ∧
        (Contains s bo ∨ ∃ e, de = some e ∧ Contains s e.Message)) ∧
    (∀ (code : Nat) (bo : String) (de : Option MobileMoneyPayoutErrorResponse)
        (dec : Option MobileMoneyPayoutResponse), code ≠ 200 →
      ∃ s, (InitiateMobileMoneyPayout code bo de dec).2 = some (PCErr.msg s) ∧
        Contains s (toString code) ∧ Contains s bo) ∧
    (∀ (code : Nat) (bo : String) (dmm : Option MobileMoneyPayoutErrorResponse)
        (de : Option Error) (dec : Option BankPayoutResponse), code ≠ 200 →
      ∃ s, (InitiateBankPayout code bo dmm de dec).2 = some (PCErr.msg s) ∧
        Contains s (toString code) ∧
        (Contains s bo ∨ ∃ g, de = some g ∧ Contains s g.Message)) ∧
    (∀ (code : Nat) (bo : String) (dec : Option Response), code ≠ 201 →
      InitiatePayment code bo dec = (none, some (PCErr.msg bo))) ∧
    (∀ (code : Nat) (de : Option Error) (dec : Option VerifyPaymentResponse),
        code ≠ 200 →
      (VerifyPayment code de dec = (none, some (match de with
        | none => PCErr.jsonFailure
        | some e => PCErr.msg (goFormatNoOperands e.Message)))) ∧
      ∀ other : Nat, other ≠ 200 →
        VerifyPayment code de dec = VerifyPayment other de dec) := by
  refine ⟨?_, ?_, ?_, ?_, ?_, ?_, ?_, ?_⟩
  · intro code bo de dec h
    cases de with
    | none =>
      exact ⟨"API request failed with status " ++ toString code ++ ": " ++ bo,
        by simp [GetMobileMoneyOperators, h], contains_code_slot _ _ _ _,
        Or.inl (contains_last_slot _ _ _ _)⟩
    | some e =>
      by_cases hm : e.Message = ""
      · exact ⟨"API request failed with status " ++ toString code ++ ": " ++ bo,
          by simp [GetMobileMoneyOperators, h, hm], contains_code_slot _ _ _ _,
          Or.inl (contains_last_slot _ _ _ _)⟩
      · exact ⟨"API error (" ++ toString code ++ "): " ++ e.Message,
          by simp [GetMobileMoneyOperators, h, hm], contains_code_slot _ _ _ _,
          Or.inr ⟨e, rfl, contains_last_slot _ _ _ _⟩⟩
  · intro code bo de dec h
    cases de with
    | none =>
      exact ⟨"API request failed with status " ++ toString code ++ ": " ++ bo,
        by simp [GetMobileMoneyPayoutDetails, h], contains_code_slot _ _ _ _,
        Or.inl (contains_last_slot _ _ _ _)⟩
    | some e =>
      by_cases hm : e.Message = ""
      · exact ⟨"API request failed with status " ++ toString code ++ ": " ++ bo,
          by simp [GetMobileMoneyPayoutDetails, h, hm], contains_code_slot _ _ _ _,
          Or.inl (contains_last_slot _ _ _ _)⟩
      · exact ⟨"API error (" ++ toString code ++ "): " ++ e.Message,
          by simp [GetMobileMoneyPayoutDetails, h, hm], contains_code_slot _ _ _ _,
          Or.inr ⟨e, rfl, contains_last_slot _ _ _ _⟩⟩
  · intro code bo de dec h
    cases de with
    | none =>
      exact ⟨"API request failed with status " ++ toString code ++ ": " ++ bo,
        by simp [GetSupportedBanks, h], contains_code_slot _ _ _ _,
        Or.inl (contains_last_slot _ _ _ _)⟩
    | some e =>
      by_cases hm : e.Message = ""
      · exact ⟨"API request failed with status " ++ toString code ++ ": " ++ bo,
          by simp [GetSupportedBanks, h, hm], contains_code_slot _ _ _ _,
          Or.inl (contains_last_slot _ _ _ _)⟩
      · exact ⟨"API error (" ++ toString code ++ "): " ++ e.Message,
          by simp [GetSupportedBanks, h, hm], contains_code_slot _ _ _ _,
          Or.inr ⟨e, rfl, contains_last_slot _ _ _ _⟩⟩
  · intro code bo de dec h
    cases de with
    | none =>
      exact ⟨"API request failed with status " ++ toString code ++ ": " ++ bo,
        by simp [GetBankPayoutDetails, h], contains_code_slot _ _ _ _,
        Or.inl (contains_last_slot _ _ _ _)⟩
    | some e =>
      by_cases hm : e.Message = ""
      · exact ⟨"API request failed with status " ++ toString code ++ ": " ++ bo,
          by simp [GetBankPayoutDetails, h, hm], contains_code_slot _ _ _ _,
          Or.inl (contains_last_slot _ _ _ _)⟩
      · exact ⟨"API error (" ++ toString code ++ "): " ++ e.Message,
          by simp [GetBankPayoutDetails, h, hm], contains_code_slot _ _ _ _,
          Or.inr ⟨e, rfl, contains_last_slot _ _ _ _⟩⟩
  · intro code bo de dec h
    cases de with
    | none =>
      exact ⟨"API request failed with status " ++ toString code ++ ": " ++ bo,
        by simp [InitiateMobileMoneyPayout, h], contains_code_slot _ _ _ _,
        contains_last_slot _ _ _ _⟩
    | some e =>
      by_cases hs : e.Status = "failed"
      · by_cases hv : flattenValidation e.Message = []
        · exact ⟨"API error (" ++ toString code ++ "): " ++ bo,
            by simp [InitiateMobileMoneyPayout, h, hs, hv], contains_code_slot _ _ _ _,
            contains_last_slot _ _ _ _⟩
        · exact ⟨"API error (" ++ toString code ++ "): " ++ ("validation failed\n" ++ bo),
            by simp [InitiateMobileMoneyPayout, h, hs, hv], contains_code_slot _ _ _ _,
            contains_trans _ _ _ (contains_last_slot _ _ _ _) (contains_suffix _ _)⟩
      · exact ⟨"API request failed with status " ++ toString code ++ ": " ++ bo,
          by simp [InitiateMobileMoneyPayout, h, hs], contains_code_slot _ _ _ _,
          contains_last_slot _ _ _ _⟩
  · intro code bo dmm de dec h
    cases dmm with
    | none =>
      cases de with
      | none =>
        exact ⟨"API request failed with status " ++ toString code ++ ": " ++ bo,
          by simp [InitiateBankPayout, h], contains_code_slot _ _ _ _,
          Or.inl (contains_last_slot _ _ _ _)⟩
      | some g =>
        by_cases hm : g.Message = ""
        · exact ⟨"API request failed with status " ++ toString code ++ ": " ++ bo,
            by simp [InitiateBankPayout, h, hm], contains_code_slot _ _ _ _,
            Or.inl (contains_last_slot _ _ _ _)⟩
        · exact ⟨"API error (" ++ toString code ++ "): " ++ g.Message,
            by simp [InitiateBankPayout, h, hm], contains_code_slot _ _ _ _,
            Or.inr ⟨g, rfl, contains_last_slot _ _ _ _⟩⟩
    | some e =>
      by_cases hval : e.Status = "failed" ∧ flattenValidation e.Message ≠ []
      · exact ⟨"API error (" ++ toString code ++ "): validation failed: " ++
            ("validation failed\n" ++ bo),
          by simp [InitiateBankPayout, h, hval.1, hval.2], contains_code_slot _ _ _ _,
          Or.inl (contains_trans _ _ _ (contains_last_slot _ _ _ _)
            (contains_suffix _ _))⟩
      · cases de with
        | none =>
          exact ⟨"API request failed with status " ++ toString code ++ ": " ++ bo,
            by simp only [InitiateBankPayout, if_pos h, if_neg hval],
            contains_code_slot _ _ _ _, Or.inl (contains_last_slot _ _ _ _)⟩
        | some g =>
          by_cases hm : g.Message = ""
          · exact ⟨"API request failed with status " ++ toString code ++ ": " ++ bo,
              by simp only [InitiateBankPayout, if_pos h, if_neg hval]
                 simp [hm], contains_code_slot _ _ _ _,
              Or.inl (contains_last_slot _ _ _ _)⟩
          · exact ⟨"API error (" ++ toString code ++ "): " ++ g.Message,
              by simp only [InitiateBankPayout, if_pos h, if_neg hval]
                 simp [hm], contains_code_slot _ _ _ _,
              Or.inr ⟨g, rfl, contains_last_slot _ _ _ _⟩⟩
  · intro code bo dec h
    simp [InitiatePayment, h]
  · intro code de dec h
    constructor
    · cases de <;> simp [VerifyPayment, h]
    · intro other ho
      cases de <;> simp [VerifyPayment, h, ho]

theorem c3_amended_status_code_in_errors_witness :
    ∃ s, (GetMobileMoneyOperators 404 "raw body" none none).2 = some (PCErr.msg s) ∧
      Contains s (toString 404) ∧
      (Contains s "raw body" ∨ ∃ e, (none : Option Error) = some e ∧ Contains s e.Message) :=
  c3_amended_status_code_in_errors.1 404 "raw body" none none (by decide)

/-- Claim C6 counterexample: `VerifyPayment` on a non-200 response whose
body fails to decode returns only the JSON decode error, which carries no
remote text at all: the raw body (and its message) is discarded
(transaction.go lines 143-147, the `return nil, err` path).  The raw body
is not even an input of the classification: the Go code never calls
`io.ReadAll` in `VerifyPayment`. -/
theorem c6_counterexample :
    VerifyPayment 500 none none = (none, some PCErr.jsonFailure) := rfl

/-- Claim C6 amended: on every non-matching-status exit taken after a
response is received, each operation except `VerifyPayment` returns an
error containing the raw body text or the decoded generic message;
`VerifyPayment`, when the non-200 body decodes, returns only the decoded
message passed through Go's no-operand format-string interpretation —
verbatim when the message contains no percent character — and when the
body fails to decode returns only the decode error, discarding the remote
message. -/
theorem c6_amended_remote_message_preserved :
    (∀ (code : Nat) (bo : String) (dec : Option Response), code ≠ 201 →
      ∃ s, (InitiatePayment code bo dec).2 = some (PCErr.msg s) ∧ Contains s bo) ∧
    (∀ (code : Nat) (bo : String) (de : Option Error)
        (dec : Option MobileMoneyOperatorsResponse), code ≠ 200 →
      ∃ s, (GetMobileMoneyOperators code bo de dec).2 = some (PCErr.msg s) ∧
        (Contains s bo ∨ ∃ e, de = some e ∧ Contains s e.Message)) ∧
    (∀ (code : Nat) (bo : String) (de : Option Error)
        (dec : Option GetMobileMoneyPayoutDetailsResponse), code ≠ 200 →
      ∃ s, (GetMobileMoneyPayoutDetails code bo de dec).2 = some (PCErr.msg s) ∧
        (Contains s bo ∨ ∃ e, de = some e ∧ Contains s e.Message)) ∧
    (∀ (code : Nat) (bo : String) (de : Option Error) (dec : Option BanksResponse),
        code ≠ 200 →
      ∃ s, (GetSupportedBanks code bo de dec).2 = some (PCErr.msg s) ∧
        (Contains s bo ∨ ∃ e, de = some e ∧ Contains s e.Message)) ∧
    (∀ (code : Nat) (bo : String) (de : Option Error)
        (dec : Option GetBankPayoutDetailsResponse), code ≠ 200 →
      ∃ s, (GetBankPayoutDetails code bo de dec).2 = some (PCErr.msg s) ∧
        (Contains s bo ∨ ∃ e, de = some e ∧ Contains s e.Message)) ∧
    (∀ (code : Nat) (bo : String) (de : Option MobileMoneyPayoutErrorResponse)
        (dec : Option MobileMoneyPayoutResponse), code ≠ 200 →
      ∃ s, (InitiateMobileMoneyPayout code bo de dec).2 = some (PCErr.msg s) ∧
        Contains s bo) ∧
    (∀ (code : Nat) (bo : String) (dmm : Option MobileMoneyPayoutErrorResponse)
        (de : Option Error) (dec : Option BankPayoutResponse), code ≠ 200 →
      ∃ s, (InitiateBankPayout code bo dmm de dec).2 = some (PCErr.msg s) ∧
        (Contains s bo ∨ ∃ g, de = some g ∧ Contains s g.Message)) ∧
    (∀ (code : Nat) (e : Error) (dec : Option VerifyPaymentResponse), code ≠ 200 →
      (VerifyPayment code (some e) dec =
        (none, some (PCErr.msg (goFormatNoOperands e.Message)))) ∧
      ('%' ∉ e.Message.data →
        VerifyPayment code (some e) dec = (none, some (PCErr.msg e.Message)))) := by
  refine ⟨?_, ?_, ?_, ?_, ?_, ?_, ?_, ?_⟩
  · intro code bo dec h
    exact ⟨bo, by simp [InitiatePayment, h], contains_self bo⟩
  · intro code bo de dec h
    cases de with
    | none =>
      exact ⟨"API request failed with status " ++ toString code ++ ": " ++ bo,
        by simp [GetMobileMoneyOperators, h], Or.inl (contains_last_slot _ _ _ _)⟩
    | some e =>
      by_cases hm : e.Message = ""
      · exact ⟨"API request failed with status " ++ toString code ++ ": " ++ bo,
          by simp [GetMobileMoneyOperators, h, hm], Or.inl (contains_last_slot _ _ _ _)⟩
      · exact ⟨"API error (" ++ toString code ++ "): " ++ e.Message,
          by simp [GetMobileMoneyOperators, h, hm],
          Or.inr ⟨e, rfl, contains_last_slot _ _ _ _⟩⟩
  · intro code bo de dec h
    cases de with
    | none =>
      exact ⟨"API request failed with status " ++ toString code ++ ": " ++ bo,
        by simp [GetMobileMoneyPayoutDetails, h], Or.inl (contains_last_slot _ _ _ _)⟩
    | some e =>
      by_cases hm : e.Message = ""
      · exact ⟨"API request failed with status " ++ toString code ++ ": " ++ bo,
          by simp [GetMobileMoneyPayoutDetails, h, hm], Or.inl (contains_last_slot _ _ _ _)⟩
      · exact ⟨"API error (" ++ toString code ++ "): " ++ e.Message,
          by simp [GetMobileMoneyPayoutDetails, h, hm],
          Or.inr ⟨e, rfl, contains_last_slot _ _ _ _⟩⟩
  · intro code bo de dec h
    cases de with
    | none =>
      exact ⟨"API request failed with status " ++ toString code ++ ": " ++ bo,
        by simp [GetSupportedBanks, h], Or.inl (contains_last_slot _ _ _ _)⟩
    | some e =>
      by_cases hm : e.Message = ""
      · exact ⟨"API request failed with status " ++ toString code ++ ": " ++ bo,
          by simp [GetSupportedBanks, h, hm], Or.inl (contains_last_slot _ _ _ _)⟩
      · exact ⟨"API error (" ++ toString code ++ "): " ++ e.Message,
          by simp [GetSupportedBanks, h, hm],
          Or.inr ⟨e, rfl, contains_last_slot _ _ _ _⟩⟩
  · intro code bo de dec h
    cases de with
    | none =>
      exact ⟨"API request failed with status " ++ toString code ++ ": " ++ bo,
        by simp [GetBankPayoutDetails, h], Or.inl (contains_last_slot _ _ _ _)⟩
    | some e =>
      by_cases hm : e.Message = ""
      · exact ⟨"API request failed with status " ++ toString code ++ ": " ++ bo,
          by simp [GetBankPayoutDetails, h, hm], Or.inl (contains_last_slot _ _ _ _)⟩
      · exact ⟨"API error (" ++ toString code ++ "): " ++ e.Message,
          by simp [GetBankPayoutDetails, h, hm],
          Or.inr ⟨e, rfl, contains_last_slot _ _ _ _⟩⟩
  · intro code bo de dec h
    cases de with
    | none =>
      exact ⟨"API request failed with status " ++ toString code ++ ": " ++ bo,
        by simp [InitiateMobileMoneyPayout, h], contains_last_slot _ _ _ _⟩
    | some e =>
      by_cases hs : e.Status = "failed"
      · by_cases hv : flattenValidation e.Message = []
        · exact ⟨"API error (" ++ toString code ++ "): " ++ bo,
            by simp [InitiateMobileMoneyPayout, h, hs, hv], contains_last_slot _ _ _ _⟩
        · exact ⟨"API error (" ++ toString code ++ "): " ++ ("validation failed\n" ++ bo),
            by simp [InitiateMobileMoneyPayout, h, hs, hv],
            contains_trans _ _ _ (contains_last_slot _ _ _ _) (contains_suffix _ _)⟩
      · exact ⟨"API request failed with status " ++ toString code ++ ": " ++ bo,
          by simp [InitiateMobileMoneyPayout, h, hs], contains_last_slot _ _ _ _⟩
  · intro code bo dmm de dec h
    cases dmm with
    | none =>
      cases de with
      | none =>
        exact ⟨"API request failed with status " ++ toString code ++ ": " ++ bo,
          by simp [InitiateBankPayout, h], Or.inl (contains_last_slot _ _ _ _)⟩
      | some g =>
        by_cases hm : g.Message = ""
        · exact ⟨"API request failed with status " ++ toString code ++ ": " ++ bo,
            by simp [InitiateBankPayout, h, hm], Or.inl (contains_last_slot _ _ _ _)⟩
        · exact ⟨"API error (" ++ toString code ++ "): " ++ g.Message,
            by simp [InitiateBankPayout, h, hm],
            Or.inr ⟨g, rfl, contains_last_slot _ _ _ _⟩⟩
    | some e =>
      by_cases hval : e.Status = "failed" ∧ flattenValidation e.Message ≠ []
      · exact ⟨"API error (" ++ toString code ++ "): validation failed: " ++
            ("validation failed\n" ++ bo),
          by simp [InitiateBankPayout, h, hval.1, hval.2],
          Or.inl (contains_trans _ _ _ (contains_last_slot _ _ _ _)
            (contains_suffix _ _))⟩
      · cases de with
        | none =>
          exact ⟨"API request failed with status " ++ toString code ++ ": " ++ bo,
            by simp only [InitiateBankPayout, if_pos h, if_neg hval],
            Or.inl (contains_last_slot _ _ _ _)⟩
        | some g =>
          by_cases hm : g.Message = ""
          · exact ⟨"API request failed with status " ++ toString code ++ ": " ++ bo,
              by simp only [InitiateBankPayout, if_pos h, if_neg hval]
                 simp [hm], Or.inl (contains_last_slot _ _ _ _)⟩
          · exact ⟨"API error (" ++ toString code ++ "): " ++ g.Message,
              by simp only [InitiateBankPayout, if_pos h, if_neg hval]
                 simp [hm], Or.inr ⟨g, rfl, contains_last_slot _ _ _ _⟩⟩
  · intro code e dec h
    constructor
    · simp [VerifyPayment, h]
    · intro hp
      simp [VerifyPayment, h, goFormatNoOperands_of_no_percent _ hp]

theorem c6_amended_remote_message_preserved_witness :
    ∃ s, (InitiatePayment 400 "raw remote text" none).2 = some (PCErr.msg s) ∧
      Contains s "raw remote text" :=
  c6_amended_remote_message_preserved.1 400 "raw remote text" none (by decide)

/-- Claim C4: for `InitiateMobileMoneyPayout` and `InitiateBankPayout`,
when a non-200 body decodes to status `"failed"` with a field-complaint
mapping, the returned error's message contains every complaint string and
every field name of the mapping.  The hypothesis `hbo` records that the
raw body spells out the decoded mapping (each field name and complaint
occurs in it verbatim), which is how a JSON body without escape sequences
relates to its decoded value; both error paths embed the raw body into the
message. -/
theorem c4_validation_complaints_surfaced
    (code : Nat) (bo : String) (e : MobileMoneyPayoutErrorResponse)
    (fields : List (String × List String))
    (d1 : Option MobileMoneyPayoutResponse) (de : Option Error)
    (d2 : Option BankPayoutResponse)
    (hc : code ≠ 200) (hs : e.Status = "failed") (hm : e.Message = some fields)
    (hne : flattenValidation (some fields) ≠ [])
    (hbo : ∀ fm ∈ fields, Contains bo fm.1 ∧ ∀ m ∈ fm.2, Contains bo m) :
    (∃ s, (InitiateMobileMoneyPayout code bo (some e) d1).2 = some (PCErr.msg s) ∧
      ∀ fm ∈ fields, Contains s fm.1 ∧ ∀ m ∈ fm.2, Contains s m) ∧
    (∃ s, (InitiateBankPayout code bo (some e) de d2).2 = some (PCErr.msg s) ∧
      ∀ fm ∈ fields, Contains s fm.1 ∧ ∀ m ∈ fm.2, Contains s m) := by
  have hne2 : flattenValidation e.Message ≠ [] := by rw [hm]; exact hne
  constructor
  · refine ⟨"API error (" ++ toString code ++ "): " ++ ("validation failed\n" ++ bo),
      ?_, ?_⟩
    · simp [InitiateMobileMoneyPayout, hc, hs, hne2]
    · have hb : Contains
          ("API error (" ++ toString code ++ "): " ++ ("validation failed\n" ++ bo)) bo :=
        contains_trans _ _ _ (contains_last_slot _ _ _ _) (contains_suffix _ _)
      intro fm hfm
      exact ⟨contains_trans _ _ _ hb (hbo fm hfm).1,
        fun m hm2 => contains_trans _ _ _ hb ((hbo fm hfm).2 m hm2)⟩
  · refine ⟨"API error (" ++ toString code ++ "): validation failed: " ++
        ("validation failed\n" ++ bo), ?_, ?_⟩
    · simp [InitiateBankPayout, hc, hs, hne2]
    · have hb : Contains ("API error (" ++ toString code ++ "): validation failed: " ++
          ("validation failed\n" ++ bo)) bo :=
        contains_trans _ _ _ (contains_last_slot _ _ _ _) (contains_suffix _ _)
      intro fm hfm
      exact ⟨contains_trans _ _ _ hb (hbo fm hfm).1,
        fun m hm2 => contains_trans _ _ _ hb ((hbo fm hfm).2 m hm2)⟩

/-- The failure body of the validation scenario:
`{"status":"failed","message":{"mobile":["is required"],"amount":["must be positive","too large"]}}`. -/
def c4Body : String :=
  "\x7b\"status\":\"failed\",\"message\":\x7b\"mobile\":[\"is required\"],\"amount\":[\"must be positive\",\"too large\"]\x7d\x7d"

def c4Fields : List (String × List String) :=
  [("mobile", ["is required"]), ("amount", ["must be positive", "too large"])]

def c4Err : MobileMoneyPayoutErrorResponse := ⟨"failed", Jv.null, some c4Fields⟩

theorem c4_validation_complaints_surfaced_witness :
    (∃ s, (InitiateMobileMoneyPayout 400 c4Body (some c4Err) none).2 =
        some (PCErr.msg s) ∧
      ∀ fm ∈ c4Fields, Contains s fm.1 ∧ ∀ m ∈ fm.2, Contains s m) ∧
    (∃ s, (InitiateBankPayout 400 c4Body (some c4Err) none none).2 =
        some (PCErr.msg s) ∧
      ∀ fm ∈ c4Fields, Contains s fm.1 ∧ ∀ m ∈ fm.2, Contains s m) := by
  refine c4_validation_complaints_surfaced 400 c4Body c4Err c4Fields none none none
    (by decide) rfl rfl (by decide) ?_
  intro fm hfm
  simp only [c4Fields, List.mem_cons, List.not_mem_nil, or_false] at hfm
  rcases hfm with rfl | rfl
  · refine ⟨contains_of_splits c4Body "mobile"
      "\x7b\"status\":\"failed\",\"message\":\x7b\""
      "\":[\"is required\"],\"amount\":[\"must be positive\",\"too large\"]\x7d\x7d"
      (by decide), ?_⟩
    intro m hm2
    simp only [List.mem_singleton] at hm2
    subst hm2
    exact contains_of_splits c4Body "is required"
      "\x7b\"status\":\"failed\",\"message\":\x7b\"mobile\":[\""
      "\"],\"amount\":[\"must be positive\",\"too large\"]\x7d\x7d" (by decide)
  · refine ⟨contains_of_splits c4Body "amount"
      "\x7b\"status\":\"failed\",\"message\":\x7b\"mobile\":[\"is required\"],\""
      "\":[\"must be positive\",\"too large\"]\x7d\x7d" (by decide), ?_⟩
    intro m hm2
    simp only [List.mem_cons, List.not_mem_nil, or_false, List.mem_singleton] at hm2
    rcases hm2 with rfl | rfl
    · exact contains_of_splits c4Body "must be positive"
        "\x7b\"status\":\"failed\",\"message\":\x7b\"mobile\":[\"is required\"],\"amount\":[\""
        "\",\"too large\"]\x7d\x7d" (by decide)
    · exact contains_of_splits c4Body "too large"
        "\x7b\"status\":\"failed\",\"message\":\x7b\"mobile\":[\"is required\"],\"amount\":[\"must be positive\",\""
        "\"]\x7d\x7d" (by decide)

/-- Claim C9 counterexample: `GetMobileMoneyOperators` on a success body
whose data array is empty returns an empty operator list together with a
nil error (transaction.go line 220 returns `response.Data`, which is the
empty — in Go possibly nil — slice), so the "non-nil (non-empty) result"
arm of the claim does not hold. -/
theorem c9_counterexample :
    GetMobileMoneyOperators 200 "" none (some ⟨"success", "no operators", []⟩) =
      (some [], none) := rfl

/-- Claim C9 amended: every client method returns exactly one of a present
result with nil error or an absent result with non-nil error — never both
and never neither — where the present result of the two list-returning
operations may be an empty list; and for the seven operations that inspect
the body's status field, a present result is returned only when the HTTP
status matched and the decoded body's status equals the operation's
success literal (`"success"`, resp. `"successful"` for
`GetBankPayoutDetails`). -/
theorem c9_amended_result_error_exclusivity :
    ((∀ code bo dec, ((InitiatePayment code bo dec).1.isSome =
        (InitiatePayment code bo dec).2.isNone)) ∧
     (∀ code de dec, ((VerifyPayment code de dec).1.isSome =
        (VerifyPayment code de dec).2.isNone)) ∧
     (∀ code bo de dec, ((GetMobileMoneyOperators code bo de dec).1.isSome =
        (GetMobileMoneyOperators code bo de dec).2.isNone)) ∧
     (∀ code bo de dec, ((InitiateMobileMoneyPayout code bo de dec).1.isSome =
        (InitiateMobileMoneyPayout code bo de dec).2.isNone)) ∧
     (∀ code bo de dec, ((GetMobileMoneyPayoutDetails code bo de dec).1.isSome =
        (GetMobileMoneyPayoutDetails code bo de dec).2.isNone)) ∧
     (∀ code bo de dec, ((GetSupportedBanks code bo de dec).1.isSome =
        (GetSupportedBanks code bo de dec).2.isNone)) ∧
     (∀ code bo dmm de dec, ((InitiateBankPayout code bo dmm de dec).1.isSome =
        (InitiateBankPayout code bo dmm de dec).2.isNone)) ∧
     (∀ code bo de dec, ((GetBankPayoutDetails code bo de dec).1.isSome =
        (GetBankPayoutDetails code bo de dec).2.isNone))) ∧
    ((∀ code de dec, (VerifyPayment code de dec).1.isSome = true →
        code = 200 ∧ ∃ r, dec = some r ∧ r.Status = "success") ∧
     (∀ code bo de dec, (GetMobileMoneyOperators code bo de dec).1.isSome = true →
        code = 200 ∧ ∃ r, dec = some r ∧ r.Status = "success") ∧
     (∀ code bo de dec, (InitiateMobileMoneyPayout code bo de dec).1.isSome = true →
        code = 200 ∧ ∃ r, dec = some r ∧ r.Status = "success") ∧
     (∀ code bo de dec, (GetMobileMoneyPayoutDetails code bo de dec).1.isSome = true →
        code = 200 ∧ ∃ r, dec = some r ∧ r.Status = "success") ∧
     (∀ code bo de dec, (GetSupportedBanks code bo de dec).1.isSome = true →
        code = 200 ∧ ∃ r, dec = some r ∧ r.Status = "success") ∧
     (∀ code bo dmm de dec, (InitiateBankPayout code bo dmm de dec).1.isSome = true →
        code = 200 ∧ ∃ r, dec = some r ∧ r.Status = "success") ∧
     (∀ code bo de dec, (GetBankPayoutDetails code bo de dec).1.isSome = true →
        code = 200 ∧ ∃ r, dec = some r ∧ r.Status = "successful")) := by
  constructor
  · refine ⟨?_, ?_, ?_, ?_, ?_, ?_, ?_, ?_⟩
    · intro code bo dec
      by_cases h : code = 201
      · subst h; cases dec <;> simp [InitiatePayment]
      · simp [InitiatePayment, h]
    · intro code de dec
      by_cases h : code = 200
      · subst h
        cases dec with
        | none => simp [VerifyPayment]
        | some r => by_cases hs : r.Status = "success" <;> simp [VerifyPayment, hs]
      · cases de <;> simp [VerifyPayment, h]
    · intro code bo de dec
      by_cases h : code = 200
      · subst h
        cases dec with
        | none => simp [GetMobileMoneyOperators]
        | some r =>
          by_cases hs : r.Status = "success" <;> simp [GetMobileMoneyOperators, hs]
      · cases de with
        | none => simp [GetMobileMoneyOperators, h]
        | some e =>
          by_cases hm : e.Message = "" <;> simp [GetMobileMoneyOperators, h, hm]
    · intro code bo de dec
      by_cases h : code = 200
      · subst h
        cases dec with
        | none => simp [InitiateMobileMoneyPayout]
        | some r =>
          by_cases hs : r.Status = "success" <;> simp [InitiateMobileMoneyPayout, hs]
      · cases de with
        | none => simp [InitiateMobileMoneyPayout, h]
        | some e =>
          by_cases hs : e.Status = "failed"
          · by_cases hv : flattenValidation e.Message = [] <;>
              simp [InitiateMobileMoneyPayout, h, hs, hv]
          · simp [InitiateMobileMoneyPayout, h, hs]
    · intro code bo de dec
      by_cases h : code = 200
      · subst h
        cases dec with
        | none => simp [GetMobileMoneyPayoutDetails]
        | some r =>
          by_cases hs : r.Status = "success" <;> simp [GetMobileMoneyPayoutDetails, hs]
      · cases de with
        | none => simp [GetMobileMoneyPayoutDetails, h]
        | some e =>
          by_cases hm : e.Message = "" <;> simp [GetMobileMoneyPayoutDetails, h, hm]
    · intro code bo de dec
      by_cases h : code = 200
      · subst h
        cases dec with
        | none => simp [GetSupportedBanks]
        | some r => by_cases hs : r.Status = "success" <;> simp [GetSupportedBanks, hs]
      · cases de with
        | none => simp [GetSupportedBanks, h]
        | some e => by_cases hm : e.Message = "" <;> simp [GetSupportedBanks, h, hm]
    · intro code bo dmm de dec
      by_cases h : code = 200
      · subst h
        cases dec with
        | none => simp [InitiateBankPayout]
        | some r => by_cases hs : r.Status = "success" <;> simp [InitiateBankPayout, hs]
      · cases dmm with
        | none =>
          cases de with
          | none => simp [InitiateBankPayout, h]
          | some g => by_cases hm : g.Message = "" <;> simp [InitiateBankPayout, h, hm]
        | some e =>
          by_cases hval : e.Status = "failed" ∧ flattenValidation e.Message ≠ []
          · simp [InitiateBankPayout, h, hval.1, hval.2]
          · cases de with
            | none =>
              simp only [InitiateBankPayout, if_pos h, if_neg hval]
              simp
            | some g =>
              by_cases hm : g.Message = "" <;>
                (simp only [InitiateBankPayout, if_pos h, if_neg hval]; simp [hm])
    · intro code bo de dec
      by_cases h : code = 200
      · subst h
        cases dec with
        | none => simp [GetBankPayoutDetails]
        | some r =>
          by_cases hs : r.Status = "successful" <;> simp [GetBankPayoutDetails, hs]
      · cases de with
        | none => simp [GetBankPayoutDetails, h]
        | some e => by_cases hm : e.Message = "" <;> simp [GetBankPayoutDetails, h, hm]
  · refine ⟨?_, ?_, ?_, ?_, ?_, ?_, ?_⟩
    · intro code de dec hx
      by_cases h : code = 200
      · subst h
        cases dec with
        | none => simp [VerifyPayment] at hx
        | some r =>
          by_cases hs : r.Status = "success"
          · exact ⟨rfl, r, rfl, hs⟩
          · simp [VerifyPayment, hs] at hx
      · exfalso; cases de <;> simp [VerifyPayment, h] at hx
    · intro code bo de dec hx
      by_cases h : code = 200
      · subst h
        cases dec with
        | none => simp [GetMobileMoneyOperators] at hx
        | some r =>
          by_cases hs : r.Status = "success"
          · exact ⟨rfl, r, rfl, hs⟩
          · simp [GetMobileMoneyOperators, hs] at hx
      · exfalso
        cases de with
        | none => simp [GetMobileMoneyOperators, h] at hx
        | some e =>
          by_cases hm : e.Message = "" <;> simp [GetMobileMoneyOperators, h, hm] at hx
    · intro code bo de dec hx
      by_cases h : code = 200
      · subst h
        cases dec with
        | none => simp [InitiateMobileMoneyPayout] at hx
        | some r =>
          by_cases hs : r.Status = "success"
          · exact ⟨rfl, r, rfl, hs⟩
          · simp [InitiateMobileMoneyPayout, hs] at hx
      · exfalso
        cases de with
        | none => simp [InitiateMobileMoneyPayout, h] at hx
        | some e =>
          by_cases hs : e.Status = "failed"
          · by_cases hv : flattenValidation e.Message = [] <;>
              simp [InitiateMobileMoneyPayout, h, hs, hv] at hx
          · simp [InitiateMobileMoneyPayout, h, hs] at hx
    · intro code bo de dec hx
      by_cases h : code = 200
      · subst h
        cases dec with
        | none => simp [GetMobileMoneyPayoutDetails] at hx
        | some r =>
          by_cases hs : r.Status = "success"
          · exact ⟨rfl, r, rfl, hs⟩
          · simp [GetMobileMoneyPayoutDetails, hs] at hx
      · exfalso
        cases de with
        | none => simp [GetMobileMoneyPayoutDetails, h] at hx
        | some e =>
          by_cases hm : e.Message = "" <;> simp [GetMobileMoneyPayoutDetails, h, hm] at hx
    · intro code bo de dec hx
      by_cases h : code = 200
      · subst h
        cases dec with
        | none => simp [GetSupportedBanks] at hx
        | some r =>
          by_cases hs : r.Status = "success"
          · exact ⟨rfl, r, rfl, hs⟩
          · simp [GetSupportedBanks, hs] at hx
      · exfalso
        cases de with
        | none => simp [GetSupportedBanks, h] at hx
        | some e => by_cases hm : e.Message = "" <;> simp [GetSupportedBanks, h, hm] at hx
    · intro code bo dmm de dec hx
      by_cases h : code = 200
      · subst h
        cases dec with
        | none => simp [InitiateBankPayout] at hx
        | some r =>
          by_cases hs : r.Status = "success"
          · exact ⟨rfl, r, rfl, hs⟩
          · simp [InitiateBankPayout, hs] at hx
      · exfalso
        cases dmm with
        | none =>
          cases de with
          | none => simp [InitiateBankPayout, h] at hx
          | some g => by_cases hm : g.Message = "" <;> simp [InitiateBankPayout, h, hm] at hx
        | some e =>
          by_cases hval : e.Status = "failed" ∧ flattenValidation e.Message ≠ []
          · simp [InitiateBankPayout, h, hval.1, hval.2] at hx
          · cases de with
            | none =>
              simp only [InitiateBankPayout, if_pos h, if_neg hval] at hx
              simp at hx
            | some g =>
              by_cases hm : g.Message = "" <;>
                (simp only [InitiateBankPayout, if_pos h, if_neg hval] at hx
                 simp [hm] at hx)
    · intro code bo de dec hx
      by_cases h : code = 200
      · subst h
        cases dec with
        | none => simp [GetBankPayoutDetails] at hx
        | some r =>
          by_cases hs : r.Status = "successful"
          · exact ⟨rfl, r, rfl, hs⟩
          · simp [GetBankPayoutDetails, hs] at hx
      · exfalso
        cases de with
        | none => simp [GetBankPayoutDetails, h] at hx
        | some e => by_cases hm : e.Message = "" <;> simp [GetBankPayoutDetails, h, hm] at hx

theorem c9_amended_result_error_exclusivity_witness :
    200 = 200 ∧ ∃ r, (some (⟨"success", "ok", default⟩ : VerifyPaymentResponse) : Option VerifyPaymentResponse) = some r ∧
      r.Status = "success" :=
  c9_amended_result_error_exclusivity.2.1 200 none
    (some ⟨"success", "ok", default⟩) rfl

/-- Claim C10: in the serialized wire payloads of
`InitiateMobileMoneyPayout` and `InitiateBankPayout`, the optional fields
email, first_name, last_name (and transaction_status for mobile money) are
omitted exactly when they are the empty string, while every required field
is always present. -/
theorem c10_omitempty_optional_fields :
    (∀ r : MobileMoneyPayoutRequest,
      ("email" ∈ fieldKeys (marshalMobileMoneyPayoutRequest r) ↔ r.Email ≠ "") ∧
      ("first_name" ∈ fieldKeys (marshalMobileMoneyPayoutRequest r) ↔ r.FirstName ≠ "") ∧
      ("last_name" ∈ fieldKeys (marshalMobileMoneyPayoutRequest r) ↔ r.LastName ≠ "") ∧
      ("transaction_status" ∈ fieldKeys (marshalMobileMoneyPayoutRequest r) ↔
        r.TransactionStatus ≠ "") ∧
      "mobile" ∈ fieldKeys (marshalMobileMoneyPayoutRequest r) ∧
      "mobile_money_operator_ref_id" ∈ fieldKeys (marshalMobileMoneyPayoutRequest r) ∧
      "amount" ∈ fieldKeys (marshalMobileMoneyPayoutRequest r) ∧
      "charge_id" ∈ fieldKeys (marshalMobileMoneyPayoutRequest r)) ∧
    (∀ r : BankPayoutRequest,
      ("email" ∈ fieldKeys (marshalBankPayoutPayload r) ↔ r.Email ≠ "") ∧
      ("first_name" ∈ fieldKeys (marshalBankPayoutPayload r) ↔ r.FirstName ≠ "") ∧
      ("last_name" ∈ fieldKeys (marshalBankPayoutPayload r) ↔ r.LastName ≠ "") ∧
      "payout_method" ∈ fieldKeys (marshalBankPayoutPayload r) ∧
      "bank_uuid" ∈ fieldKeys (marshalBankPayoutPayload r) ∧
      "amount" ∈ fieldKeys (marshalBankPayoutPayload r) ∧
      "charge_id" ∈ fieldKeys (marshalBankPayoutPayload r) ∧
      "bank_account_name" ∈ fieldKeys (marshalBankPayoutPayload r) ∧
      "bank_account_number" ∈ fieldKeys (marshalBankPayoutPayload r)) := by
  constructor
  · intro r
    by_cases h1 : r.Email = "" <;> by_cases h2 : r.FirstName = "" <;>
      by_cases h3 : r.LastName = "" <;> by_cases h4 : r.TransactionStatus = "" <;>
      simp [marshalMobileMoneyPayoutRequest, fieldKeys, h1, h2, h3, h4]
  · intro r
    by_cases h1 : r.Email = "" <;> by_cases h2 : r.FirstName = "" <;>
      by_cases h3 : r.LastName = "" <;>
      simp [marshalBankPayoutPayload, fieldKeys, h1, h2, h3]

theorem c10_omitempty_optional_fields_witness :
    "email" ∉ fieldKeys (marshalMobileMoneyPayoutRequest
      ⟨"265888123456", "op-ref-1", 0, "CH1", "", "", "", ""⟩) :=
  fun hmem =>
    ((c10_omitempty_optional_fields.1
      ⟨"265888123456", "op-ref-1", 0, "CH1", "", "", "", ""⟩).1.mp hmem) rfl

end Paychangu
